import Mathlib

/-!
Verification of the connection-manager core of `GatewayMgr.py`
(persistent push-gateway client): the length-prefixed frame codec
(`Packet.Pack` / `Packet.UnPack`), the receive-loop buffer handling
(`GatewayMgr._recv`), the send-loop retry policy (`GatewayMgr._send`),
the tracked enqueue (`GatewayMgr._queued_send` / `send_push`) and the
response dispatcher (`GatewayMgr._resp_handler`).

The wire buffer is modelled as a `List Nat` of octets.  The protobuf
container `gw_message_pb2.Container` is generated code that is not part
of the source tree, so its serialization is modelled from the spec (see
`serializeContainer`).  Python exceptions are modelled with explicit
`Except` / `Option` results, and the side effects of the dispatcher and
the loops are recorded as explicit event traces.
-/

/-! ## Type-bit flags and limits (GatewayMgr.py lines 44-54) -/

def MSG_SERVER : Nat := 0x0
def MSG_CLIENT : Nat := 0x1
def MSG_AUTH : Nat := 0x2
def MSG_HEARTBEAT : Nat := 0x4
def MSG_RECEIPT : Nat := 0x8
def MSG_NOT_TRANSIENT : Nat := 0x10
def MSG_GROUP : Nat := 0x20
def MSG_EVENT : Nat := 0x40
def MSG_ERROR : Nat := 0x80000000

/-- `MAX_PACKET_LENGTH = 1 << 20` (GatewayMgr.py line 54). -/
def MAX_PACKET_LENGTH : Nat := 1 <<< 20

/-- `GatewayMgr.PUSH_SERVER_SID = '00000001'` (line 97). -/
def PUSH_SERVER_SID : String := "00000001"

/-- Modelled from the spec: `MessageObj.STATUS_SUCCESS` (module `Message`
is an external collaborator, not in the source tree); the success status
value passed to a receipt callback. -/
def STATUS_SUCCESS : Nat := 1

/-! ## The wire container

`gw_message_pb2.Container` has fields `SID`, `RID`, `MID`, `STIME`,
`TYPE`, `BODY` (GatewayMgr.py lines 168-174). -/

structure Container where
  SID : String
  RID : String
  MID : String
  STIME : Nat
  TYPE : Nat
  BODY : String
deriving DecidableEq, Repr

/-- Modelled from the spec: the schema encoding of a string field of the
container (`gw_message_pb2` is generated protobuf code absent from the
source tree; the spec says the container fields are schema-encoded,
self-delimiting).  A string is encoded as its character count followed by
its character codes. -/
def encodeStr (s : String) : List Nat :=
  s.data.length :: s.data.map Char.toNat

/-- Modelled from the spec: `Container.SerializeToString()` — the
schema encoding of the six container fields in order
(`sender_id, receiver_id, message_id, send_time, type_bits, body`). -/
def serializeContainer (m : Container) : List Nat :=
  encodeStr m.SID ++ encodeStr m.RID ++ encodeStr m.MID ++
    [m.STIME] ++ [m.TYPE] ++ encodeStr m.BODY

/-- Decode one schema-encoded string field, returning it with the rest
of the buffer. -/
def decodeStr : List Nat → Option (String × List Nat)
  | [] => none
  | n :: rest =>
      if n ≤ rest.length then
        some (String.mk ((rest.take n).map Char.ofNat), rest.drop n)
      else none

/-- Decode one schema-encoded integer field. -/
def decodeNat : List Nat → Option (Nat × List Nat)
  | [] => none
  | n :: rest => some (n, rest)

/-- Modelled from the spec: `Container.ParseFromString(data)` — parse
the six fields back, requiring the buffer to be consumed exactly. -/
def parseContainer (l : List Nat) : Option Container := do
  let (sid, l) ← decodeStr l
  let (rid, l) ← decodeStr l
  let (mid, l) ← decodeStr l
  let (stime, l) ← decodeNat l
  let (ty, l) ← decodeNat l
  let (body, l) ← decodeStr l
  if l.isEmpty then some ⟨sid, rid, mid, stime, ty, body⟩ else none

/-! ## The length-prefixed packet codec (`Packet`) -/

/-- `struct.pack('>I', n)`: the 4-octet big-endian encoding of a 32-bit
unsigned integer. -/
def pack32BE (n : Nat) : List Nat :=
  [n / 16777216 % 256, n / 65536 % 256, n / 256 % 256, n % 256]

/-- `struct.unpack('>I', data[:4])[0]`: read a big-endian 32-bit
unsigned integer from the first four octets. -/
def readBE32 (l : List Nat) : Nat :=
  l.getD 0 0 * 16777216 + l.getD 1 0 * 65536 + l.getD 2 0 * 256 + l.getD 3 0

/-- The exceptions `Packet.UnPack` can raise: `DataNeededError`,
`MaxLengthError` (GatewayMgr.py lines 59-65) and a protobuf decode
failure from `ParseFromString`. -/
inductive PacketError where
  | dataNeeded (msg : String)
  | maxLength (msg : String)
  | decodeFailed
deriving DecidableEq, Repr

/-- `Packet.Pack` (GatewayMgr.py lines 69-75): serialize the container
and prepend its byte length as a big-endian uint32. -/
def Pack (message : Container) : List Nat :=
  pack32BE (serializeContainer message).length ++ serializeContainer message

/-- `Packet.UnPack` (GatewayMgr.py lines 77-94): raise `DataNeededError`
below 4 octets, then read the length prefix (`readBE32 data`, the local
`length` of the source), raise `MaxLengthError` when it exceeds
`MAX_PACKET_LENGTH`, raise `DataNeededError` when fewer than
`4 + length` octets are available, else parse `data[4:4+length]`. -/
def UnPack (data : List Nat) : Except PacketError Container :=
  if data.length < 4 then .error (.dataNeeded "At least 4 octets")
  else if readBE32 data > MAX_PACKET_LENGTH then .error (.maxLength "")
  else if data.length < 4 + readBE32 data then .error (.dataNeeded "Need more data")
  else
    match parseContainer ((data.drop 4).take (readBE32 data)) with
    | some msg => .ok msg
    | none => .error .decodeFailed

/-! ## Receive-loop buffer handling (`GatewayMgr._recv`, lines 205-226) -/

/-- What one decode step of the receive loop does with the accumulated
buffer. -/
inductive RecvStep where
  | dispatch (m : Container)
  | keep
  | crash (e : PacketError)
deriving DecidableEq, Repr

/-- The decode portion of one `_recv` iteration (lines 217-224): try
`Packet.UnPack(buf)`; on `DataNeededError` `continue` with `buf`
untouched; on success set `buf = ''` (the whole buffer, trailing bytes
included) and dispatch the message; any other exception (such as
`MaxLengthError`) is uncaught and ends the greenlet. -/
def recvBufferStep (buf : List Nat) : List Nat × RecvStep :=
  match UnPack buf with
  | .ok msg => ([], .dispatch msg)
  | .error (.dataNeeded _) => (buf, .keep)
  | .error e => (buf, .crash e)

/-! ## The response dispatcher (`GatewayMgr._resp_handler`, lines 239-281) -/

/-- The Python exceptions relevant to dispatch: `KeyboardInterrupt`,
`KeyError` from a missing dict key, `InconsistentError` from the
presence collaborators, `socket.error`, and anything else. -/
inductive Exc where
  | keyboardInterrupt
  | keyError (key : String)
  | inconsistent (msg : String)
  | socketError (msg : String)
  | otherError (msg : String)
deriving DecidableEq, Repr

/-- Observable actions of the dispatcher: logging, invoking a registered
receipt callback (identified by an opaque id) with a status, the
presence-store removal `mysql().delToOnlineTable(sid)`, and the two
notification collaborators `online_callback` / `offline_callback`. -/
inductive Effect where
  | logDebug (msg : String)
  | logWarning (msg : String)
  | logError (msg : String)
  | invokeCallback (cb : Nat) (status : Nat)
  | delOnline (sid : String)
  | onlineCb (sid : String)
  | offlineCb (sid : String)
deriving DecidableEq, Repr

/-- Key lookup in a parsed JSON object (`msg_body[k]` succeeding);
`json.loads` itself is Python stdlib, external to the source, so the
dispatcher below takes the parsed object directly (an empty `BODY`
parses to the empty object, lines 242-245). -/
def lookupStr : List (String × String) → String → Option String
  | [], _ => none
  | p :: rest, k => if p.1 = k then some p.2 else lookupStr rest k

/-- `mid in self.callback_tbl` / `self.callback_tbl[mid]`: lookup in the
Callback Table, modelled as an association list with dict semantics
(keys unique, maintained by `insertTbl`). -/
def lookupTbl : List (String × Nat) → String → Option Nat
  | [], _ => none
  | p :: rest, k => if p.1 = k then some p.2 else lookupTbl rest k

/-- `self.callback_tbl.pop(mid)` (line 252): remove the entry. -/
def popTbl : List (String × Nat) → String → List (String × Nat)
  | [], _ => []
  | p :: rest, k => if p.1 = k then rest else p :: popTbl rest k

/-- `self.callback_tbl[mid] = callback` (line 180): dict assignment —
overwrite an existing key, else append. -/
def insertTbl (tbl : List (String × Nat)) (k : String) (v : Nat) :
    List (String × Nat) :=
  if (lookupTbl tbl k).isSome then
    tbl.map (fun p => if p.1 = k then (k, v) else p)
  else tbl ++ [(k, v)]

/-- Result of one dispatch: the updated Callback Table, the trace of
observable actions in order, and the exception escaping
`_resp_handler`, if any. -/
structure HandlerOut where
  tbl : List (String × Nat)
  trace : List Effect
  exc : Option Exc
deriving DecidableEq, Repr

/-- `GatewayMgr._resp_handler` (lines 239-281).  `msgBody` is the parsed
JSON body (see `lookupStr`).  `cbRes` is the outcome of invoking the
registered callback, `delRes` of `mysql().delToOnlineTable`, `onlineRes`
of `online_callback`, `offlineRes` of `offline_callback` — each either
returns or raises the given exception.  A missing dict key raises
`KeyError`; in the receipt branch a callback raising
`KeyboardInterrupt` is re-raised, any other callback exception is
logged; in the event branches only `InconsistentError` is caught and
logged as a warning. -/
def resp_handler (tbl : List (String × Nat)) (msg : Container)
    (msgBody : List (String × String))
    (cbRes delRes onlineRes offlineRes : Except Exc Unit) : HandlerOut :=
  if msg.TYPE &&& MSG_CLIENT ≠ 0 then
    match lookupStr msgBody "type" with
    | none => ⟨tbl, [], some (Exc.keyError "type")⟩
    | some t =>
      if t = "receipt" then
        match lookupStr msgBody "mid" with
        | none => ⟨tbl, [], some (Exc.keyError "mid")⟩
        | some mid =>
          match lookupTbl tbl mid with
          | some cb =>
            match cbRes with
            | Except.ok _ =>
                ⟨popTbl tbl mid,
                  [Effect.logDebug (msg.SID ++ " confirmed " ++ mid),
                    Effect.invokeCallback cb STATUS_SUCCESS], none⟩
            | Except.error Exc.keyboardInterrupt =>
                ⟨popTbl tbl mid,
                  [Effect.logDebug (msg.SID ++ " confirmed " ++ mid),
                    Effect.invokeCallback cb STATUS_SUCCESS],
                  some Exc.keyboardInterrupt⟩
            | Except.error _ =>
                ⟨popTbl tbl mid,
                  [Effect.logDebug (msg.SID ++ " confirmed " ++ mid),
                    Effect.invokeCallback cb STATUS_SUCCESS,
                    Effect.logError "[GM] Got exception in callback"], none⟩
          | none =>
            ⟨tbl, [Effect.logDebug (msg.SID ++ " confirmed " ++ mid)], none⟩
      else
        ⟨tbl,
          [Effect.logDebug
            ("***INCOMING FROM [" ++ msg.SID ++ "]:" ++ msg.BODY ++ "***")],
          none⟩
  else
    if msg.TYPE &&& MSG_EVENT ≠ 0 then
      match lookupStr msgBody "type" with
      | none => ⟨tbl, [], some (Exc.keyError "type")⟩
      | some t =>
        if t = "online" then
          match onlineRes with
          | Except.ok _ =>
              ⟨tbl, [Effect.logDebug ("[GM] user " ++ msg.SID ++ " is now online"),
                Effect.onlineCb msg.SID], none⟩
          | Except.error (Exc.inconsistent e) =>
              ⟨tbl, [Effect.logDebug ("[GM] user " ++ msg.SID ++ " is now online"),
                Effect.onlineCb msg.SID,
                Effect.logWarning
                  ("error during setting " ++ msg.SID ++ " online: " ++ e)], none⟩
          | Except.error e =>
              ⟨tbl, [Effect.logDebug ("[GM] user " ++ msg.SID ++ " is now online"),
                Effect.onlineCb msg.SID], some e⟩
        else if t = "offline" then
          match delRes with
          | Except.ok _ =>
            match offlineRes with
            | Except.ok _ =>
                ⟨tbl, [Effect.logDebug ("[GM] user " ++ msg.SID ++ " is now offline"),
                  Effect.delOnline msg.SID, Effect.offlineCb msg.SID], none⟩
            | Except.error (Exc.inconsistent e) =>
                ⟨tbl, [Effect.logDebug ("[GM] user " ++ msg.SID ++ " is now offline"),
                  Effect.delOnline msg.SID, Effect.offlineCb msg.SID,
                  Effect.logWarning
                    ("error during setting " ++ msg.SID ++ " offline: " ++ e)], none⟩
            | Except.error e =>
                ⟨tbl, [Effect.logDebug ("[GM] user " ++ msg.SID ++ " is now offline"),
                  Effect.delOnline msg.SID, Effect.offlineCb msg.SID], some e⟩
          | Except.error (Exc.inconsistent e) =>
              ⟨tbl, [Effect.logDebug ("[GM] user " ++ msg.SID ++ " is now offline"),
                Effect.delOnline msg.SID,
                Effect.logWarning
                  ("error during setting " ++ msg.SID ++ " offline: " ++ e)], none⟩
          | Except.error e =>
              ⟨tbl, [Effect.logDebug ("[GM] user " ++ msg.SID ++ " is now offline"),
                Effect.delOnline msg.SID], some e⟩
        else ⟨tbl, [], none⟩
    else ⟨tbl, [], none⟩

/-- Number of callback invocations in a trace. -/
def countInvokes (trace : List Effect) : Nat :=
  (trace.filter (fun e => match e with
    | Effect.invokeCallback _ _ => true
    | _ => false)).length

/-- What the receive loop does after dispatch. -/
inductive RecvCtl where
  | advance
  | exitLoop
  | die (e : Exc)
deriving DecidableEq, Repr

/-- The dispatch guard of `_recv` (lines 223-226):
`try: self._resp_handler(msg) except KeyboardInterrupt: break` — only
`KeyboardInterrupt` is caught (exiting the loop); an exception-free
dispatch continues the loop; any other exception escaping the handler
propagates uncaught and terminates the receive greenlet. -/
def recvDispatchStep (exc : Option Exc) : RecvCtl :=
  match exc with
  | none => RecvCtl.advance
  | some Exc.keyboardInterrupt => RecvCtl.exitLoop
  | some e => RecvCtl.die e

/-! ## Send loop (`GatewayMgr._send`, lines 182-203) -/

/-- Observable actions of one send-loop iteration. -/
inductive SendEv where
  | connect
  | write (ok : Bool)
  | warn
deriving DecidableEq, Repr

/-- One attempt of the retry loop (lines 186-199): reconnect when the
socket handles are absent, then write; `socket.error` on the write
closes and clears the handles.  `wOk` is the outcome of the write.
Returns `(ok, connected, events)`. -/
def sendAttempt (connected : Bool) (wOk : Bool) : Bool × Bool × List SendEv :=
  let evs := if connected then [] else [SendEv.connect]
  if wOk then (true, true, evs ++ [SendEv.write true])
  else (false, false, evs ++ [SendEv.write false])

/-- One iteration of the send loop (lines 183-203): pop one item from
the queue (blocking when empty, modelled as `none`), run
`for _ in range(2)` attempts stopping at the first success, and log one
warning when both fail; the item is never re-queued and no exception
escapes the iteration.  `w1`, `w2` are the outcomes of the two possible
write attempts.  Returns `(connected, remaining queue, events,
delivered)`. -/
def sendLoopStep (connected : Bool) (queue : List (List Nat)) (w1 w2 : Bool) :
    Option (Bool × List (List Nat) × List SendEv × Bool) :=
  match queue with
  | [] => none
  | _b :: rest =>
    let a1 := sendAttempt connected w1
    if a1.1 then some (a1.2.1, rest, a1.2.2, true)
    else
      let a2 := sendAttempt a1.2.1 w2
      if a2.1 then some (a2.2.1, rest, a1.2.2 ++ a2.2.2, true)
      else some (a2.2.1, rest, a1.2.2 ++ a2.2.2 ++ [SendEv.warn], false)

/-- Number of write attempts in a send-loop event list. -/
def countWrites (evs : List SendEv) : Nat :=
  (evs.filter (fun e => match e with
    | SendEv.write _ => true
    | _ => false)).length

/-- Number of warnings in a send-loop event list. -/
def countWarns (evs : List SendEv) : Nat :=
  (evs.filter (fun e => match e with
    | SendEv.warn => true
    | _ => false)).length

/-! ## Tracked enqueue (`GatewayMgr._queued_send` / `send_push`) -/

/-- The message-id computation of `_queued_send` (line 167):
`mid = 'PSH' + (mid or binascii.hexlify(os.urandom(9)))`.  A supplied id
is falsy exactly when it is the empty string; `randHex` stands for the
`hexlify(urandom(9))` result (18 hex characters). -/
def mkMid (mid : Option String) (randHex : String) : String :=
  "PSH" ++ (match mid with
    | some s => if s = "" then randHex else s
    | none => randHex)

/-- Result of `_queued_send`: the extended send queue, the updated
Callback Table, and the container that was packed. -/
structure QueuedOut where
  queue : List (List Nat)
  tbl : List (String × Nat)
  msg : Container
deriving DecidableEq, Repr

/-- `GatewayMgr._queued_send` (lines 153-180): build the container
(`SID = PUSH_SERVER_SID`, `STIME = 0`) with the possibly generated
message-id, pack it, append the bytes to the send queue, and register
the callback (an opaque id, `cb = some f`) under the message-id when one
is supplied. -/
def queued_send (queue : List (List Nat)) (tbl : List (String × Nat))
    (rid : String) (msgtype : Nat) (body : String) (cb : Option Nat)
    (mid : Option String) (randHex : String) : QueuedOut :=
  let mid2 := mkMid mid randHex
  let msg : Container := ⟨PUSH_SERVER_SID, rid, mid2, 0, msgtype, body⟩
  { queue := queue ++ [Pack msg]
    tbl := match cb with
      | some f => insertTbl tbl mid2 f
      | none => tbl
    msg := msg }

/-- Python `'%07s' % s`: right-justify the string in a field of width 7,
padding with spaces. -/
def format7s (s : String) : String :=
  if s.length < 7 then String.mk (List.replicate (7 - s.length) ' ') ++ s else s

/-- `GatewayMgr.send_push` (lines 136-151): enqueue a tracked send with
receiver-id `bundle.user.guid`, flags `MSG_CLIENT | MSG_RECEIPT`, body
`bundle.msg.payload`, the bundle's callback, and supplied message-id
`'%07s-%s' % (bundle.msg.msgid, bundle.user.guid)`.  The bundle fields
are passed as plain values (`MessageObj` is an external collaborator). -/
def send_push (queue : List (List Nat)) (tbl : List (String × Nat))
    (guid : String) (payload : String) (msgid : String) (cb : Nat)
    (randHex : String) : QueuedOut :=
  queued_send queue tbl guid (MSG_CLIENT ||| MSG_RECEIPT) payload (some cb)
    (some (format7s msgid ++ "-" ++ guid)) randHex

/-! ## Codec helper lemmas -/

theorem charList_roundtrip (l : List Char) :
    l.map (fun c => Char.ofNat c.toNat) = l := by
  induction l with
  | nil => rfl
  | cons c cs ih => simp [ih, Char.ofNat_toNat]

theorem decodeStr_encodeStr (s : String) (t : List Nat) :
    decodeStr (encodeStr s ++ t) = some (s, t) := by
  simp only [encodeStr, List.cons_append, decodeStr]
  rw [if_pos (by simp), List.take_left' (by simp), List.drop_left' (by simp),
    List.map_map]
  rw [show Char.ofNat ∘ Char.toNat = fun c => Char.ofNat c.toNat from rfl]
  rw [charList_roundtrip]

theorem parse_serialize (m : Container) :
    parseContainer (serializeContainer m) = some m := by
  obtain ⟨sid, rid, mid, stime, ty, body⟩ := m
  simp only [serializeContainer, parseContainer, List.append_assoc]
  rw [decodeStr_encodeStr]
  simp only [Option.bind_eq_bind, Option.some_bind]
  rw [decodeStr_encodeStr]
  simp only [Option.some_bind]
  rw [decodeStr_encodeStr]
  simp only [Option.some_bind, List.cons_append, List.nil_append, decodeNat,
    Option.some_bind]
  rw [show encodeStr body = encodeStr body ++ [] from (List.append_nil _).symm,
    decodeStr_encodeStr]
  rfl

theorem readBE32_pack32BE (n : Nat) (rest : List Nat) (h : n < 4294967296) :
    readBE32 (pack32BE n ++ rest) = n := by
  simp only [pack32BE, readBE32, List.cons_append, List.nil_append, List.getD,
    List.get?_cons_zero, List.get?_cons_succ, List.getElem?_cons_zero,
    List.getElem?_cons_succ, Option.getD_some]
  omega

theorem length_Pack (m : Container) :
    (Pack m).length = 4 + (serializeContainer m).length := by
  simp [Pack, pack32BE]
  omega

theorem UnPack_Pack_append (m : Container) (extra : List Nat)
    (h : (serializeContainer m).length ≤ MAX_PACKET_LENGTH) :
    UnPack (Pack m ++ extra) = Except.ok m := by
  have hM : MAX_PACKET_LENGTH = 1048576 := rfl
  have h32 : (serializeContainer m).length < 4294967296 := by
    rw [hM] at h
    omega
  have hsplit : Pack m ++ extra
      = pack32BE (serializeContainer m).length ++ (serializeContainer m ++ extra) := by
    simp [Pack]
  rw [hsplit]
  have hread := readBE32_pack32BE (serializeContainer m).length
    (serializeContainer m ++ extra) h32
  have hlen : (pack32BE (serializeContainer m).length
      ++ (serializeContainer m ++ extra)).length
      = 4 + (serializeContainer m).length + extra.length := by
    simp [pack32BE]
    omega
  have hdrop : (pack32BE (serializeContainer m).length
      ++ (serializeContainer m ++ extra)).drop 4 = serializeContainer m ++ extra :=
    List.drop_left' (by simp [pack32BE])
  have c1 : ¬ ((pack32BE (serializeContainer m).length
      ++ (serializeContainer m ++ extra)).length < 4) := by
    rw [hlen]
    omega
  have c2 : ¬ (readBE32 (pack32BE (serializeContainer m).length
      ++ (serializeContainer m ++ extra)) > MAX_PACKET_LENGTH) := by
    rw [hread]
    exact not_lt.mpr h
  have c3 : ¬ ((pack32BE (serializeContainer m).length
      ++ (serializeContainer m ++ extra)).length
      < 4 + readBE32 (pack32BE (serializeContainer m).length
        ++ (serializeContainer m ++ extra))) := by
    rw [hlen, hread]
    omega
  unfold UnPack
  rw [if_neg c1, if_neg c2, if_neg c3, hread, hdrop,
    List.take_left' rfl, parse_serialize]

theorem unpack_take_dataNeeded (m : Container) (k : Nat)
    (hmax : (serializeContainer m).length ≤ MAX_PACKET_LENGTH)
    (hk : k < (Pack m).length) :
    ∃ s, UnPack ((Pack m).take k) = Except.error (PacketError.dataNeeded s) := by
  have hM : MAX_PACKET_LENGTH = 1048576 := rfl
  have h32 : (serializeContainer m).length < 4294967296 := by
    have h2 := hmax
    rw [hM] at h2
    omega
  have hkL : k < 4 + (serializeContainer m).length := by
    rw [length_Pack] at hk
    exact hk
  rcases Nat.lt_or_ge k 4 with h4 | h4
  · refine ⟨"At least 4 octets", ?_⟩
    unfold UnPack
    rw [if_pos]
    rw [List.length_take]
    omega
  · refine ⟨"Need more data", ?_⟩
    have hsplit : (Pack m).take k
        = pack32BE (serializeContainer m).length
          ++ (serializeContainer m).take (k - 4) := by
      have hk4 : k = (pack32BE (serializeContainer m).length).length + (k - 4) := by
        simp [pack32BE]
        omega
      conv_lhs => rw [Pack, hk4]
      rw [List.take_append]
    rw [hsplit]
    have hread := readBE32_pack32BE (serializeContainer m).length
      ((serializeContainer m).take (k - 4)) h32
    have hlen : (pack32BE (serializeContainer m).length
        ++ (serializeContainer m).take (k - 4)).length = k := by
      simp [pack32BE, List.length_take]
      omega
    have c1 : ¬ ((pack32BE (serializeContainer m).length
        ++ (serializeContainer m).take (k - 4)).length < 4) := by
      rw [hlen]
      omega
    have c2 : ¬ (readBE32 (pack32BE (serializeContainer m).length
        ++ (serializeContainer m).take (k - 4)) > MAX_PACKET_LENGTH) := by
      rw [hread]
      exact not_lt.mpr hmax
    have c3 : (pack32BE (serializeContainer m).length
        ++ (serializeContainer m).take (k - 4)).length
        < 4 + readBE32 (pack32BE (serializeContainer m).length
          ++ (serializeContainer m).take (k - 4)) := by
      rw [hlen, hread]
      omega
    unfold UnPack
    rw [if_neg c1, if_neg c2, if_pos c3]

/-! ## Claims about the frame codec -/

/-- Claim C1: for every valid frame `f` (serialized length within the
1 MiB maximum), `UnPack (Pack f)` yields a container whose fields all
equal those of `f`, and the decode consumes exactly
`4 + len(serialized f)` octets: that is exactly the length of `Pack f`,
the decode succeeds on precisely those octets, and any trailing octets
beyond them are ignored by the decode. -/
theorem c1_pack_unpack_roundtrip (m : Container)
    (h : (serializeContainer m).length ≤ MAX_PACKET_LENGTH) :
    UnPack (Pack m) = Except.ok m ∧
    (Pack m).length = 4 + (serializeContainer m).length ∧
    ∀ extra : List Nat, UnPack (Pack m ++ extra) = Except.ok m := by
  refine ⟨?_, length_Pack m, fun extra => UnPack_Pack_append m extra h⟩
  have h0 := UnPack_Pack_append m [] h
  rw [List.append_nil] at h0
  exact h0

/-- Concrete instance of claim C1 at an explicit frame. -/
theorem c1_pack_unpack_roundtrip_witness :
    UnPack (Pack ⟨"00000001", "guid1", "PSHmid1", 0, 9, "payload"⟩)
      = Except.ok ⟨"00000001", "guid1", "PSHmid1", 0, 9, "payload"⟩ :=
  (c1_pack_unpack_roundtrip ⟨"00000001", "guid1", "PSHmid1", 0, 9, "payload"⟩
    (by decide)).1

/-- Claim C6: any buffer with at least a 4-octet big-endian length
prefix whose declared length exceeds 1,048,576 makes `UnPack` fail with
`MaxLengthError`, whatever the rest of the buffer holds — in particular
also when fewer than `4 + declared length` octets are available. -/
theorem c6_oversize_rejection (data : List Nat)
    (h4 : 4 ≤ data.length) (hbig : readBE32 data > MAX_PACKET_LENGTH) :
    UnPack data = Except.error (PacketError.maxLength "") := by
  unfold UnPack
  rw [if_neg (by omega), if_pos hbig]

/-- Concrete instance of claim C6: a bare 4-octet prefix declaring
4,294,967,295 octets (so far fewer than the declared length is
available) is rejected as oversize, not as needing more data. -/
theorem c6_oversize_rejection_witness :
    4 ≤ ([255, 255, 255, 255] : List Nat).length ∧
    readBE32 [255, 255, 255, 255] > MAX_PACKET_LENGTH ∧
    UnPack [255, 255, 255, 255] = Except.error (PacketError.maxLength "") :=
  ⟨by decide, by decide, c6_oversize_rejection [255, 255, 255, 255]
    (by decide) (by decide)⟩

/-- Claim C7: every strict prefix of a valid encoded frame fails to
decode with `DataNeededError`; the decode is a pure function of the
buffer, so the caller's buffer is unchanged by the failure (the
buffer-retention side is also stated in claim C5). -/
theorem c7_partial_needs_more (m : Container) (k : Nat)
    (hmax : (serializeContainer m).length ≤ MAX_PACKET_LENGTH)
    (hk : k < (Pack m).length) :
    ∃ s, UnPack ((Pack m).take k) = Except.error (PacketError.dataNeeded s) :=
  unpack_take_dataNeeded m k hmax hk

/-- Concrete instance of claim C7 at an explicit frame, truncated to 5
octets. -/
theorem c7_partial_needs_more_witness :
    ∃ s, UnPack ((Pack ⟨"00000001", "guid1", "PSHmid1", 0, 9, "payload"⟩).take 5)
      = Except.error (PacketError.dataNeeded s) :=
  c7_partial_needs_more ⟨"00000001", "guid1", "PSHmid1", 0, 9, "payload"⟩ 5
    (by decide) (by decide)

/-! ## Claims about the receive loop and the send loop -/

/-- Claim C5: in a receive-loop iteration, a successful decode resets
the whole accumulation buffer to empty — trailing octets of a second
pipelined frame included — and a `NeedMoreData` failure leaves the
buffer exactly as it was. -/
theorem c5_recv_buffer_reset (m : Container) (extra : List Nat) (k : Nat)
    (hmax : (serializeContainer m).length ≤ MAX_PACKET_LENGTH)
    (hk : k < (Pack m).length) :
    recvBufferStep (Pack m ++ extra) = ([], RecvStep.dispatch m) ∧
    recvBufferStep ((Pack m).take k) = ((Pack m).take k, RecvStep.keep) := by
  constructor
  · unfold recvBufferStep
    rw [UnPack_Pack_append m extra hmax]
  · obtain ⟨s, hs⟩ := unpack_take_dataNeeded m k hmax hk
    unfold recvBufferStep
    rw [hs]

/-- Concrete instance of claim C5: the buffer holds one full frame
followed by the octets of a second frame; the step dispatches the first
frame and discards everything, while a 3-octet partial buffer is kept
intact. -/
theorem c5_recv_buffer_reset_witness :
    recvBufferStep (Pack ⟨"00000001", "guid1", "PSHmid1", 0, 9, "payload"⟩
        ++ Pack ⟨"00000001", "guid2", "PSHmid2", 0, 9, "second"⟩)
      = ([], RecvStep.dispatch ⟨"00000001", "guid1", "PSHmid1", 0, 9, "payload"⟩) ∧
    recvBufferStep ((Pack ⟨"00000001", "guid1", "PSHmid1", 0, 9, "payload"⟩).take 3)
      = ((Pack ⟨"00000001", "guid1", "PSHmid1", 0, 9, "payload"⟩).take 3,
          RecvStep.keep) :=
  c5_recv_buffer_reset ⟨"00000001", "guid1", "PSHmid1", 0, 9, "payload"⟩
    (Pack ⟨"00000001", "guid2", "PSHmid2", 0, 9, "second"⟩) 3
    (by decide) (by decide)

/-- Claim C3: for every item popped from the Outbound Queue the send
loop makes at most two write attempts (exactly one when the first
succeeds), reconnects first when disconnected, delivers exactly when
some attempt succeeds, reports exactly one warning when both attempts
fail, and always returns the remaining queue without re-queueing the
item (the iteration is total: no exception reaches `send_push`
callers). -/
theorem c3_send_two_attempts (c w1 w2 : Bool) (b : List Nat)
    (rest : List (List Nat)) :
    ∃ conn evs,
      sendLoopStep c (b :: rest) w1 w2 = some (conn, rest, evs, w1 || w2) ∧
      countWrites evs ≤ 2 ∧
      countWrites evs = (if w1 then 1 else 2) ∧
      countWarns evs = (if w1 || w2 then 0 else 1) ∧
      evs.head? = some (if c then SendEv.write w1 else SendEv.connect) := by
  cases c <;> cases w1 <;> cases w2 <;>
    exact ⟨_, _, rfl, by decide, by decide, by decide, by decide⟩

/-! ## Callback Table lemmas -/

theorem lookupTbl_eq_none_of_not_mem (tbl : List (String × Nat)) (k : String)
    (h : k ∉ tbl.map Prod.fst) : lookupTbl tbl k = none := by
  induction tbl with
  | nil => rfl
  | cons p rest ih =>
    simp only [List.map_cons, List.mem_cons, not_or] at h
    have hk : ¬ p.1 = k := fun he => h.1 he.symm
    simp only [lookupTbl, if_neg hk]
    exact ih h.2

theorem lookupTbl_popTbl_of_nodup (tbl : List (String × Nat)) (k : String)
    (h : (tbl.map Prod.fst).Nodup) : lookupTbl (popTbl tbl k) k = none := by
  induction tbl with
  | nil => rfl
  | cons p rest ih =>
    simp only [List.map_cons, List.nodup_cons] at h
    by_cases hk : p.1 = k
    · simp only [popTbl, if_pos hk]
      apply lookupTbl_eq_none_of_not_mem
      rw [← hk]
      exact h.1
    · simp only [popTbl, if_neg hk, lookupTbl]
      exact ih h.2

/-! ## Dispatcher helper lemmas -/

theorem resp_handler_receipt_hit (tbl : List (String × Nat)) (msg : Container)
    (body : List (String × String)) (M : String) (f : Nat)
    (cbRes d o of : Except Exc Unit)
    (hc : msg.TYPE &&& MSG_CLIENT ≠ 0)
    (ht : lookupStr body "type" = some "receipt")
    (hmid : lookupStr body "mid" = some M)
    (hm : lookupTbl tbl M = some f) :
    (resp_handler tbl msg body cbRes d o of).tbl = popTbl tbl M ∧
    countInvokes (resp_handler tbl msg body cbRes d o of).trace = 1 ∧
    Effect.invokeCallback f STATUS_SUCCESS
      ∈ (resp_handler tbl msg body cbRes d o of).trace := by
  cases cbRes with
  | ok u => simp [resp_handler, hc, ht, hmid, hm, countInvokes]
  | error e => cases e <;> simp [resp_handler, hc, ht, hmid, hm, countInvokes]

theorem resp_handler_receipt_miss (tbl : List (String × Nat)) (msg : Container)
    (body : List (String × String)) (M : String)
    (cbRes d o of : Except Exc Unit)
    (hc : msg.TYPE &&& MSG_CLIENT ≠ 0)
    (ht : lookupStr body "type" = some "receipt")
    (hmid : lookupStr body "mid" = some M)
    (hm : lookupTbl tbl M = none) :
    resp_handler tbl msg body cbRes d o of
      = ⟨tbl, [Effect.logDebug (msg.SID ++ " confirmed " ++ M)], none⟩ := by
  simp [resp_handler, hc, ht, hmid, hm]

/-- Claim C2: with a callback registered under message-id `M` in a
well-formed Callback Table, dispatching two client-class receipt frames
whose bodies reference `M` invokes the callback exactly once, with the
success status, during the first dispatch; the first dispatch removes
the entry for `M`, and the second dispatch finds no entry and invokes
nothing. -/
theorem c2_callback_at_most_once
    (tbl : List (String × Nat)) (M : String) (f : Nat)
    (msg1 msg2 : Container) (body1 body2 : List (String × String))
    (cbRes1 cbRes2 d1 o1 of1 d2 o2 of2 : Except Exc Unit)
    (hnd : (tbl.map Prod.fst).Nodup)
    (hm : lookupTbl tbl M = some f)
    (hc1 : msg1.TYPE &&& MSG_CLIENT ≠ 0)
    (ht1 : lookupStr body1 "type" = some "receipt")
    (hmid1 : lookupStr body1 "mid" = some M)
    (hc2 : msg2.TYPE &&& MSG_CLIENT ≠ 0)
    (ht2 : lookupStr body2 "type" = some "receipt")
    (hmid2 : lookupStr body2 "mid" = some M) :
    countInvokes (resp_handler tbl msg1 body1 cbRes1 d1 o1 of1).trace = 1 ∧
    Effect.invokeCallback f STATUS_SUCCESS
      ∈ (resp_handler tbl msg1 body1 cbRes1 d1 o1 of1).trace ∧
    lookupTbl (resp_handler tbl msg1 body1 cbRes1 d1 o1 of1).tbl M = none ∧
    countInvokes (resp_handler (resp_handler tbl msg1 body1 cbRes1 d1 o1 of1).tbl
      msg2 body2 cbRes2 d2 o2 of2).trace = 0 := by
  obtain ⟨htbl1, hcnt1, hmem1⟩ :=
    resp_handler_receipt_hit tbl msg1 body1 M f cbRes1 d1 o1 of1 hc1 ht1 hmid1 hm
  have hnone : lookupTbl (resp_handler tbl msg1 body1 cbRes1 d1 o1 of1).tbl M
      = none := by
    rw [htbl1]
    exact lookupTbl_popTbl_of_nodup tbl M hnd
  refine ⟨hcnt1, hmem1, hnone, ?_⟩
  rw [resp_handler_receipt_miss _ msg2 body2 M cbRes2 d2 o2 of2 hc2 ht2 hmid2 hnone]
  rfl

/-- Concrete instance of claim C2: table with callback 7 registered
under `"PSHabc"`, two receipt frames for `"PSHabc"` dispatched in
sequence. -/
theorem c2_callback_at_most_once_witness :
    countInvokes (resp_handler [("PSHabc", 7)] ⟨"gw", "", "", 0, 9, ""⟩
      [("type", "receipt"), ("mid", "PSHabc")]
      (Except.ok ()) (Except.ok ()) (Except.ok ()) (Except.ok ())).trace = 1 ∧
    Effect.invokeCallback 7 STATUS_SUCCESS
      ∈ (resp_handler [("PSHabc", 7)] ⟨"gw", "", "", 0, 9, ""⟩
        [("type", "receipt"), ("mid", "PSHabc")]
        (Except.ok ()) (Except.ok ()) (Except.ok ()) (Except.ok ())).trace ∧
    lookupTbl (resp_handler [("PSHabc", 7)] ⟨"gw", "", "", 0, 9, ""⟩
      [("type", "receipt"), ("mid", "PSHabc")]
      (Except.ok ()) (Except.ok ()) (Except.ok ()) (Except.ok ())).tbl "PSHabc"
      = none ∧
    countInvokes (resp_handler
      (resp_handler [("PSHabc", 7)] ⟨"gw", "", "", 0, 9, ""⟩
        [("type", "receipt"), ("mid", "PSHabc")]
        (Except.ok ()) (Except.ok ()) (Except.ok ()) (Except.ok ())).tbl
      ⟨"gw", "", "", 0, 9, ""⟩ [("type", "receipt"), ("mid", "PSHabc")]
      (Except.ok ()) (Except.ok ()) (Except.ok ()) (Except.ok ())).trace = 0 :=
  c2_callback_at_most_once [("PSHabc", 7)] "PSHabc" 7
    ⟨"gw", "", "", 0, 9, ""⟩ ⟨"gw", "", "", 0, 9, ""⟩
    [("type", "receipt"), ("mid", "PSHabc")]
    [("type", "receipt"), ("mid", "PSHabc")]
    (Except.ok ()) (Except.ok ()) (Except.ok ()) (Except.ok ()) (Except.ok ())
    (Except.ok ()) (Except.ok ()) (Except.ok ())
    (by decide) (by decide) (by decide) (by decide) (by decide)
    (by decide) (by decide) (by decide)

/-! ## Claims about dispatch error handling and presence events -/

/-- Counterexample to claim C4 as stated: a client-class frame whose
body lacks a `type` field raises `KeyError`, which the receive loop does
not catch — the dispatch step is not a continue, so this one bad frame
terminates the Receive Loop. -/
theorem c4_counterexample :
    recvDispatchStep (resp_handler [] ⟨"S1", "", "M1", 0, 1, ""⟩ []
      (Except.ok ()) (Except.ok ()) (Except.ok ()) (Except.ok ())).exc
      ≠ RecvCtl.advance := by
  decide

/-- Claim C4 amended: the receive loop catches only
`KeyboardInterrupt` around dispatch (exiting the loop); any other error
raised during dispatch — for example the `KeyError` from a client-class
frame whose body lacks a `type` field — propagates uncaught, without
being logged at the loop level, and terminates the Receive Loop; only an
exception-free dispatch continues the loop. -/
theorem c4_dispatch_error_kills_recv_loop
    (tbl : List (String × Nat)) (msg : Container) (body : List (String × String))
    (cbRes d o of : Except Exc Unit)
    (hc : msg.TYPE &&& MSG_CLIENT ≠ 0)
    (ht : lookupStr body "type" = none) :
    (resp_handler tbl msg body cbRes d o of).exc = some (Exc.keyError "type") ∧
    recvDispatchStep (resp_handler tbl msg body cbRes d o of).exc
      = RecvCtl.die (Exc.keyError "type") ∧
    (∀ e : Exc, e ≠ Exc.keyboardInterrupt →
      recvDispatchStep (some e) = RecvCtl.die e) ∧
    recvDispatchStep (some Exc.keyboardInterrupt) = RecvCtl.exitLoop ∧
    recvDispatchStep none = RecvCtl.advance := by
  have hx : (resp_handler tbl msg body cbRes d o of).exc
      = some (Exc.keyError "type") := by
    simp [resp_handler, hc, ht]
  refine ⟨hx, ?_, ?_, rfl, rfl⟩
  · rw [hx]
    rfl
  · intro e he
    cases e
    case keyboardInterrupt => exact absurd rfl he
    all_goals rfl

/-- Concrete instance of amended claim C4: the bad frame from the
counterexample indeed makes the dispatch step terminate the loop. -/
theorem c4_dispatch_error_kills_recv_loop_witness :
    (resp_handler [] ⟨"S1", "", "M1", 0, 1, ""⟩ []
      (Except.ok ()) (Except.ok ()) (Except.ok ()) (Except.ok ())).exc
      = some (Exc.keyError "type") ∧
    recvDispatchStep (resp_handler [] ⟨"S1", "", "M1", 0, 1, ""⟩ []
      (Except.ok ()) (Except.ok ()) (Except.ok ()) (Except.ok ())).exc
      = RecvCtl.die (Exc.keyError "type") :=
  ⟨(c4_dispatch_error_kills_recv_loop [] ⟨"S1", "", "M1", 0, 1, ""⟩ []
      (Except.ok ()) (Except.ok ()) (Except.ok ()) (Except.ok ())
      (by decide) (by decide)).1,
    (c4_dispatch_error_kills_recv_loop [] ⟨"S1", "", "M1", 0, 1, ""⟩ []
      (Except.ok ()) (Except.ok ()) (Except.ok ()) (Except.ok ())
      (by decide) (by decide)).2.1⟩

/-- Claim C9: for a dispatched server-class frame (CLIENT bit clear)
with the EVENT bit set and body type `"offline"`, whenever the
offline-notification callback is invoked for the sender, the
presence-store removal for that sender occurs strictly earlier in the
trace. -/
theorem c9_del_before_offline_callback
    (tbl : List (String × Nat)) (msg : Container) (body : List (String × String))
    (cbRes delRes onlineRes offlineRes : Except Exc Unit)
    (hs : msg.TYPE &&& MSG_CLIENT = 0)
    (he : msg.TYPE &&& MSG_EVENT ≠ 0)
    (ht : lookupStr body "type" = some "offline")
    (hmem : Effect.offlineCb msg.SID
      ∈ (resp_handler tbl msg body cbRes delRes onlineRes offlineRes).trace) :
    ∃ i j : Nat, i < j ∧
      (resp_handler tbl msg body cbRes delRes onlineRes offlineRes).trace[i]?
        = some (Effect.delOnline msg.SID) ∧
      (resp_handler tbl msg body cbRes delRes onlineRes offlineRes).trace[j]?
        = some (Effect.offlineCb msg.SID) := by
  cases delRes with
  | ok u =>
    cases offlineRes with
    | ok v =>
      refine ⟨1, 2, by omega, ?_, ?_⟩ <;> simp [resp_handler, hs, he, ht]
    | error e =>
      cases e <;>
        (refine ⟨1, 2, by omega, ?_, ?_⟩ <;> simp [resp_handler, hs, he, ht])
  | error e =>
    exfalso
    revert hmem
    cases e <;> simp [resp_handler, hs, he, ht]

/-- Concrete instance of claim C9: offline event from sender `"S1"`,
both collaborators succeed. -/
theorem c9_del_before_offline_callback_witness :
    ∃ i j : Nat, i < j ∧
      (resp_handler [] ⟨"S1", "", "", 0, 64, ""⟩ [("type", "offline")]
        (Except.ok ()) (Except.ok ()) (Except.ok ()) (Except.ok ())).trace[i]?
        = some (Effect.delOnline "S1") ∧
      (resp_handler [] ⟨"S1", "", "", 0, 64, ""⟩ [("type", "offline")]
        (Except.ok ()) (Except.ok ()) (Except.ok ()) (Except.ok ())).trace[j]?
        = some (Effect.offlineCb "S1") :=
  c9_del_before_offline_callback [] ⟨"S1", "", "", 0, 64, ""⟩ [("type", "offline")]
    (Except.ok ()) (Except.ok ()) (Except.ok ()) (Except.ok ())
    (by decide) (by decide) (by decide) (by decide)

/-- Claim C10: when dispatching a server-class offline presence event,
a presence-store removal that raises `InconsistentError` suppresses the
offline-notification callback (only a warning is logged, no exception
escapes); the offline callback runs only when the removal returns
without raising. -/
theorem c10_inconsistent_skips_offline_callback
    (tbl : List (String × Nat)) (msg : Container) (body : List (String × String))
    (cbRes delRes onlineRes offlineRes : Except Exc Unit)
    (hs : msg.TYPE &&& MSG_CLIENT = 0)
    (he : msg.TYPE &&& MSG_EVENT ≠ 0)
    (ht : lookupStr body "type" = some "offline") :
    (∀ s, delRes = Except.error (Exc.inconsistent s) →
      Effect.offlineCb msg.SID
        ∉ (resp_handler tbl msg body cbRes delRes onlineRes offlineRes).trace ∧
      Effect.logWarning ("error during setting " ++ msg.SID ++ " offline: " ++ s)
        ∈ (resp_handler tbl msg body cbRes delRes onlineRes offlineRes).trace ∧
      (resp_handler tbl msg body cbRes delRes onlineRes offlineRes).exc
        = none) ∧
    (Effect.offlineCb msg.SID
        ∈ (resp_handler tbl msg body cbRes delRes onlineRes offlineRes).trace →
      delRes = Except.ok ()) := by
  constructor
  · intro s hdel
    subst hdel
    refine ⟨?_, ?_, ?_⟩ <;> simp [resp_handler, hs, he, ht]
  · intro hmem
    cases delRes with
    | ok u => cases u; rfl
    | error e =>
      exfalso
      revert hmem
      cases e <;> simp [resp_handler, hs, he, ht]

/-- Concrete instance of claim C10: offline event from `"S1"` whose
presence-store removal raises `InconsistentError("dup")`. -/
theorem c10_inconsistent_skips_offline_callback_witness :
    Effect.offlineCb "S1"
      ∉ (resp_handler [] ⟨"S1", "", "", 0, 64, ""⟩ [("type", "offline")]
        (Except.ok ()) (Except.error (Exc.inconsistent "dup"))
        (Except.ok ()) (Except.ok ())).trace ∧
    Effect.logWarning ("error during setting " ++ "S1" ++ " offline: " ++ "dup")
      ∈ (resp_handler [] ⟨"S1", "", "", 0, 64, ""⟩ [("type", "offline")]
        (Except.ok ()) (Except.error (Exc.inconsistent "dup"))
        (Except.ok ()) (Except.ok ())).trace ∧
    (resp_handler [] ⟨"S1", "", "", 0, 64, ""⟩ [("type", "offline")]
      (Except.ok ()) (Except.error (Exc.inconsistent "dup"))
      (Except.ok ()) (Except.ok ())).exc = none :=
  (c10_inconsistent_skips_offline_callback [] ⟨"S1", "", "", 0, 64, ""⟩
    [("type", "offline")] (Except.ok ())
    (Except.error (Exc.inconsistent "dup")) (Except.ok ()) (Except.ok ())
    (by decide) (by decide) (by decide)).1 "dup" rfl

/-! ## Claims about the tracked enqueue message-id -/

/-- Counterexample to claim C8 as stated: supplying message-id `"abc"`
to the tracked enqueue does not make `"abc"` the frame's message-id —
`_queued_send` prepends `"PSH"` to a supplied id as well. -/
theorem c8_counterexample :
    (queued_send [] [] "guid9" 9 "body" none (some "abc")
      "0123456789abcdef01").msg.MID ≠ "abc" := by
  decide

/-- Claim C8 amended: the frame's message-id is always `"PSH"` followed
by the supplied id when a non-empty id is supplied, and `"PSH"` followed
by the generated 18 hex characters when no id (or an empty one) is
supplied; a `send_push` frame's message-id is `"PSH"` followed by the
combination of the bundle's msgid (space-padded to width 7) and the
receiver's guid. -/
theorem c8_mid_prefixed (queue : List (List Nat)) (tbl : List (String × Nat))
    (rid : String) (msgtype : Nat) (bodyStr : String) (cb : Option Nat)
    (m randHex guid payload msgid : String) (f : Nat) :
    (queued_send queue tbl rid msgtype bodyStr cb (some m) randHex).msg.MID
      = "PSH" ++ (if m = "" then randHex else m) ∧
    (queued_send queue tbl rid msgtype bodyStr cb none randHex).msg.MID
      = "PSH" ++ randHex ∧
    (send_push queue tbl guid payload msgid f randHex).msg.MID
      = "PSH" ++ (format7s msgid ++ "-" ++ guid) := by
  refine ⟨rfl, rfl, ?_⟩
  have hne : ¬ (format7s msgid ++ "-" ++ guid = "") := by
    intro hemp
    have hlen := congrArg String.length hemp
    rw [String.length_append, String.length_append] at hlen
    have hone : ("-" : String).length = 1 := rfl
    have hzero : ("" : String).length = 0 := rfl
    rw [hone, hzero] at hlen
    omega
  simp [send_push, queued_send, mkMid, hne]
